import Mathlib

/-!
Verification of the RAG ingestion-and-retrieval pipeline of an agent
platform written in TypeScript.  The development shallowly embeds the
relevant source functions:

* the chunker `chunkText`, the tabular extractors `extractSchemaFromCSV`
  and `extractRowsFromCSV`, and `isTabularFile`
  (packages/rag-pipeline processors/text-processor);
* the store gateway `deleteDocumentByFileId`, `insertDocumentChunks`,
  `insertOrUpdateDocumentMetadata`, `insertDocumentRows`, and the
  ingestion orchestrator `processFileForRAG`
  (packages/rag-pipeline uploader/db-handler);
* the retrieval tool `generateEmbedding`, `searchDocuments`,
  `formatResults`, `ragRetrievalTool` (core-agent tools/rag-retrieval);
* the memory search `searchMemories` (memory system).

Modelling conventions: JS strings are `String` (character sequences are
`List Char` where index arithmetic matters); JS numbers used as indices
and sizes are `Int`/`Nat`; similarity scores and embedding components are
`ℚ` (only order comparisons occur in the code); `Buffer` contents are
`List Nat` (byte lists).  External collaborators (the Supabase store, the
csv-parse library, the embedding provider) are parameters: functions from
inputs to an `Except` outcome, so a run of the embedded code is a pure
function of the program input and of the collaborators' behaviour.
Thrown JS exceptions are `Except.error`; a `try`/`catch` is a `match` on
the body's outcome.  The single unbounded loop of the code base (inside
`chunkText`) is embedded with explicit fuel; exhausting the fuel is the
model of divergence, and the fuel bound chosen is proved sufficient for
every terminating configuration of the loop.
-/

namespace Rag

/-- Embedding vectors: fixed-length rational vectors (the code never
inspects components except for order comparisons on similarity scores). -/
abbrev Vec := List ℚ

/-- Raw file bytes (JS `Buffer`). -/
abbrev Bytes := List Nat

/-- An error object returned by a Supabase call: `code` and `message`. -/
structure StoreErr where
  code : String
  message : String
deriving Repr, DecidableEq

/-- A thrown JS error value, tagged with the class used by the source. -/
inductive JsError where
  | databaseError (msg : String)
  | toolExecutionError (tool msg : String)
  | genericError (msg : String)
deriving Repr, DecidableEq

/-! ## Chunker (`chunkText`) -/

/-- Whitespace characters removed by JS `String.prototype.trim`
(the code points occurring in practice). -/
def isJsSpace (c : Char) : Bool :=
  c = ' ' || c = '\t' || c = '\n' || c = '\r' || c = '\x0b' || c = '\x0c'

/-- JS `chunk.trim()` is truthy iff the chunk has a non-whitespace character. -/
def jsTrimNonempty (s : List Char) : Bool :=
  s.any (fun c => !(isJsSpace c))

/-- JS `String.prototype.slice(start, end)` on a character list:
negative indices count from the end, both indices are clamped to
`[0, length]`, and an empty slice results when `start' ≥ end'`. -/
def jsSlice (s : List Char) (start stop : Int) : List Char :=
  let len : Int := s.length
  let lo : Int := if start < 0 then max (len + start) 0 else min start len
  let hi : Int := if stop < 0 then max (len + stop) 0 else min stop len
  if lo < hi then (s.drop lo.toNat).take (hi - lo).toNat else []

/-- The `for (let i = 0; i < cleaned.length; i += chunkSize - overlap)`
loop of `chunkText`, with explicit fuel.  `none` means the fuel was
exhausted: the source loop performed more iterations than the given
bound (for a non-positive advance `chunkSize - overlap` the loop never
exits, which is proved below). -/
def chunkLoop (cleaned : List Char) (chunkSize overlap : Int)
    (i : Int) (acc : List (List Char)) : Nat → Option (List (List Char))
  | 0 => none
  | fuel + 1 =>
    if i < (cleaned.length : Int) then
      let chunk := jsSlice cleaned i (i + chunkSize)
      let acc' := if jsTrimNonempty chunk then acc ++ [chunk] else acc
      chunkLoop cleaned chunkSize overlap (i + (chunkSize - overlap)) acc' fuel
    else
      some acc

/-- Model of `chunkText(text, chunkSize, overlap)`: guard `if (!text) return []`,
strip carriage returns, then run the sliding-window loop.  The fuel
`cleaned.length + 1` suffices whenever the advance is at least 1 (each
iteration then moves `i` forward by at least one position), so `none`
is returned exactly when the source loop diverges. -/
def chunkText (text : List Char) (chunkSize overlap : Int) :
    Option (List (List Char)) :=
  if text = [] then some []
  else
    let cleaned := text.filter (fun c => c ≠ '\r')
    chunkLoop cleaned chunkSize overlap 0 [] (cleaned.length + 1)

/-! ## Tabular extractor (`extractSchemaFromCSV`, `extractRowsFromCSV`,
`isTabularFile`) -/

/-- A cell value after csv-parse's best-effort `cast` coercion. -/
inductive CellVal where
  | str (s : String)
  | num (q : ℚ)
  | bool (b : Bool)
deriving Repr, DecidableEq

/-- One parsed record under `columns: true`: an ordered field→value map. -/
abbrev CsvRecord := List (String × CellVal)

/-- Error raised by the external csv-parse library. -/
structure ParseErr where
  message : String
deriving Repr, DecidableEq

/-- Behaviour of one configuration of the external `csv-parse` call:
a function from the decoded file bytes to either a record list or a
thrown parse error. -/
abbrev CsvParse := Bytes → Except ParseErr (List CsvRecord)

/-- Model of `extractSchemaFromCSV(fileContent)`: run csv-parse with
`columns: true, skip_empty_lines: true`; an empty record list gives
`[]`, otherwise the keys of the first record; the `catch` turns a parse
error into `[]`.  Total by construction: it never raises. -/
def extractSchemaFromCSV (parse : CsvParse) (fileContent : Bytes) :
    List String :=
  match parse fileContent with
  | .error _ => []
  | .ok records =>
    match records with
    | [] => []
    | r :: _ => r.map Prod.fst

/-- Model of `extractRowsFromCSV(fileContent)`: run csv-parse with
`columns: true, skip_empty_lines: true, cast: true`; the `catch` turns a
parse error into `[]`.  Total by construction: it never raises. -/
def extractRowsFromCSV (parse : CsvParse) (fileContent : Bytes) :
    List CsvRecord :=
  match parse fileContent with
  | .error _ => []
  | .ok records => records

/-- JS `hay.includes(needle)` (substring test) on strings. -/
def jsIncludes (hay needle : String) : Bool :=
  (List.range (hay.data.length + 1)).any
    (fun i => List.isPrefixOf needle.data (hay.data.drop i))

/-- The four tabular MIME types recognised by `isTabularFile`. -/
def tabularTypes : List String :=
  ["text/csv",
   "application/vnd.ms-excel",
   "application/vnd.openxmlformats-officedocument.spreadsheetml.sheet",
   "application/vnd.google-apps.spreadsheet"]

/-- Model of `isTabularFile(mimeType)`: some tabular type occurs as a substring
of the declared MIME type. -/
def isTabularFile (mimeType : String) : Bool :=
  tabularTypes.any (fun t => jsIncludes mimeType t)

/-! ## Vector store state and gateway (`db-handler`) -/

/-- One row of the `documents` table: chunk content, its embedding and
the fields of its `metadata` JSON object (flattened). -/
structure ChunkRow where
  content : List Char
  file_id : String
  file_url : String
  file_title : String
  mime_type : String
  chunk_index : Nat
  file_contents : Option Bytes
  embedding : Vec
deriving Repr, DecidableEq

/-- One row of the `document_rows` table. -/
structure RowRec where
  dataset_id : String
  row_data : CsvRecord
deriving Repr, DecidableEq

/-- One row of the `document_metadata` table (`schema` stays the parsed
column list; the source stores its JSON encoding). -/
structure MetaRec where
  id : String
  title : String
  url : String
  schema : Option (List String)
deriving Repr, DecidableEq

/-- The tables of the store touched by the ingestion pipeline.  Rows are
kept in insertion order, as the underlying store does. -/
structure DBState where
  documents : List ChunkRow
  document_rows : List RowRec
  document_metadata : List MetaRec
deriving Repr, DecidableEq

/-- Injected outcomes for the store calls of one ingestion run: `none`
means the call succeeds, `some e` means the store returns error `e`.
A failed call leaves its table unchanged. -/
structure StoreFailures where
  delChunks : Option StoreErr
  delRows : Option StoreErr
  delMeta : Option StoreErr
  metaUpsert : Option StoreErr
  rowsDelete : Option StoreErr
  rowsInsert : Option StoreErr
  chunksInsert : Option StoreErr
deriving Repr, DecidableEq

/-- Every store call succeeds. -/
def noFailures : StoreFailures :=
  ⟨none, none, none, none, none, none, none⟩

/-- The `logger.warn` events emitted by `deleteDocumentByFileId`
(info/debug-level logging carries no data the spec talks about and is
not modelled). -/
inductive LogEvent where
  | warnRowsDelete
  | warnMetaDelete
deriving Repr, DecidableEq

/-- Model of `deleteDocumentByFileId(fileId)`: delete the chunks (an error is
thrown, caught, and rebranded `DatabaseError`: fatal), then the rows and
the metadata row (errors other than the `PGRST116` not-found code are
logged with `logger.warn`; either way execution continues). -/
def deleteDocumentByFileId (f : StoreFailures) (fileId : String)
    (st : DBState) : Except JsError (DBState × List LogEvent) :=
  match f.delChunks with
  | some e => .error (.databaseError ("Failed to delete document: " ++ e.message))
  | none =>
    let st1 := { st with
      documents := st.documents.filter (fun r => !(r.file_id = fileId)) }
    let (st2, log2) :=
      match f.delRows with
      | some e =>
        (st1, if e.code = "PGRST116" then [] else [LogEvent.warnRowsDelete])
      | none =>
        ({ st1 with
           document_rows :=
             st1.document_rows.filter (fun r => !(r.dataset_id = fileId)) },
         [])
    let (st3, log3) :=
      match f.delMeta with
      | some e =>
        (st2, if e.code = "PGRST116" then [] else [LogEvent.warnMetaDelete])
      | none =>
        ({ st2 with
           document_metadata :=
             st2.document_metadata.filter (fun r => !(r.id = fileId)) },
         [])
    .ok (st3, log2 ++ log3)

/-- The `data` built by `insertDocumentChunks`:
`chunks.map((chunk, i) => ({content, metadata..., embedding: embeddings[i]}))`. -/
def chunkRowsOf (chunks : List (List Char)) (embeddings : List Vec)
    (fileId fileUrl fileTitle mimeType : String)
    (fileContents : Option Bytes) : List ChunkRow :=
  (chunks.zip embeddings).enum.map (fun p =>
    { content := p.2.1
      file_id := fileId
      file_url := fileUrl
      file_title := fileTitle
      mime_type := mimeType
      chunk_index := p.1
      file_contents := fileContents
      embedding := p.2.2 : ChunkRow })

/-- Model of `insertDocumentChunks(chunks, embeddings, ...)`: a chunk/embedding
count mismatch throws a plain `Error`; otherwise the rows are built and
inserted in batches of 100 (consecutive inserts of consecutive slices;
the resulting table is the old table with all rows appended in order,
which is how it is modelled — a mid-batch failure is modelled as failure
of the whole insert, the only case the claims quantify over). -/
def insertDocumentChunks (f : StoreFailures) (chunks : List (List Char))
    (embeddings : List Vec) (fileId fileUrl fileTitle mimeType : String)
    (fileContents : Option Bytes) (st : DBState) : Except JsError DBState :=
  if chunks.length ≠ embeddings.length then
    .error (.genericError "Number of chunks and embeddings must match")
  else
    let data := chunkRowsOf chunks embeddings fileId fileUrl fileTitle
      mimeType fileContents
    match f.chunksInsert with
    | some e => .error (.databaseError ("Failed to insert batch: " ++ e.message))
    | none => .ok { st with documents := st.documents ++ data }

/-- Model of `insertOrUpdateDocumentMetadata(fileId, fileTitle, fileUrl, schema)`:
select the existing row for `fileId`; if present, update it in place,
else insert; a store error is thrown and rebranded `DatabaseError`. -/
def insertOrUpdateDocumentMetadata (f : StoreFailures)
    (fileId fileTitle fileUrl : String) (schema : Option (List String))
    (st : DBState) : Except JsError DBState :=
  let existing := st.document_metadata.find? (fun r => r.id = fileId)
  let metadata : MetaRec :=
    { id := fileId, title := fileTitle, url := fileUrl, schema := schema }
  match f.metaUpsert with
  | some e => .error (.databaseError ("Failed to save metadata: " ++ e.message))
  | none =>
    match existing with
    | some _ =>
      .ok { st with
        document_metadata := st.document_metadata.map
          (fun r => if r.id = fileId then metadata else r) }
    | none =>
      .ok { st with
        document_metadata := st.document_metadata ++ [metadata] }

/-- Model of `insertDocumentRows(fileId, rows)`: delete the existing rows for the
dataset (the result of that call is not inspected by the source, so its
failure is silent and leaves the table unchanged), then insert the new
rows in batches of 500 (modelled as one ordered append, as for chunks);
an insert error is thrown and rebranded `DatabaseError`. -/
def insertDocumentRows (f : StoreFailures) (fileId : String)
    (rows : List CsvRecord) (st : DBState) : Except JsError DBState :=
  let st1 :=
    match f.rowsDelete with
    | some _ => st
    | none =>
      { st with
        document_rows :=
          st.document_rows.filter (fun r => !(r.dataset_id = fileId)) }
  match f.rowsInsert with
  | some e => .error (.databaseError ("Failed to save rows: " ++ e.message))
  | none =>
    .ok { st1 with
      document_rows := st1.document_rows ++
        rows.map (fun row => { dataset_id := fileId, row_data := row }) }

/-- Model of `createEmbeddings(texts)`: empty input short-circuits to `[]`;
otherwise one call to the external embedding provider, whose behaviour
is the parameter `embed`; a provider error is thrown and rebranded. -/
def createEmbeddings (embed : List (List Char) → Except String (List Vec))
    (texts : List (List Char)) : Except JsError (List Vec) :=
  if texts = [] then .ok []
  else
    match embed texts with
    | .error msg => .error (.genericError ("Failed to create embeddings: " ++ msg))
    | .ok vs => .ok vs

/-- JS `s.startsWith(pre)`. -/
def jsStartsWith (s pre : String) : Bool :=
  List.isPrefixOf pre.data s.data

/-- The external collaborators of one ingestion run: the two csv-parse
configurations, the embedding provider, and the injected store-call
outcomes. -/
structure Deps where
  schemaParse : CsvParse
  rowsParse : CsvParse
  embed : List (List Char) → Except String (List Vec)
  failures : StoreFailures

/-- The arguments of `processFileForRAG` (defaults
`mimeType = 'text/plain'`, `chunkSize = 1000`, `chunkOverlap = 200`
already applied). -/
structure ProcessFileOptions where
  fileContent : Bytes
  text : List Char
  fileId : String
  fileUrl : String
  fileTitle : String
  mimeType : String
  chunkSize : Int
  chunkOverlap : Int

/-- One gateway/provider call made by `processFileForRAG`, recorded in
order of invocation. -/
inductive GatewayEvent where
  | deleteSource
  | upsertMetadata
  | insertRows
  | embedCall
  | insertChunks
deriving Repr, DecidableEq

/-- Model of `processFileForRAG(options)`: the ingestion orchestrator.  Result:
`none` when the `chunkText` loop diverges (the source call never
returns); otherwise `some (success, final state, ordered call trace)`.
Every fatal error of a step is caught by the outer `catch`, which logs
and returns `false`.  Source order: delete existing records; compute
`isTabular` and (if tabular) the schema; upsert metadata; if tabular,
extract rows and, when non-empty, insert them; chunk the text; zero
chunks return `true` early; create embeddings; insert chunks with
`file_contents` attached for image MIME types; return `true`. -/
def processFileForRAG (deps : Deps) (opts : ProcessFileOptions)
    (st : DBState) : Option (Bool × DBState × List GatewayEvent) :=
  match deleteDocumentByFileId deps.failures opts.fileId st with
  | .error _ => some (false, st, [GatewayEvent.deleteSource])
  | .ok (st1, _) =>
    let isTabular := isTabularFile opts.mimeType
    let schema : Option (List String) :=
      if isTabular then some (extractSchemaFromCSV deps.schemaParse opts.fileContent)
      else none
    match insertOrUpdateDocumentMetadata deps.failures opts.fileId
        opts.fileTitle opts.fileUrl schema st1 with
    | .error _ =>
      some (false, st1, [GatewayEvent.deleteSource, GatewayEvent.upsertMetadata])
    | .ok st2 =>
      let rows :=
        if isTabular then extractRowsFromCSV deps.rowsParse opts.fileContent
        else []
      let tr2 := [GatewayEvent.deleteSource, GatewayEvent.upsertMetadata]
      let rowsStep : Except JsError DBState × List GatewayEvent :=
        if isTabular ∧ rows ≠ [] then
          (insertDocumentRows deps.failures opts.fileId rows st2,
           tr2 ++ [GatewayEvent.insertRows])
        else (.ok st2, tr2)
      match rowsStep with
      | (.error _, tr3) => some (false, st2, tr3)
      | (.ok st3, tr3) =>
        match chunkText opts.text opts.chunkSize opts.chunkOverlap with
        | none => none
        | some chunks =>
          if chunks = [] then some (true, st3, tr3)
          else
            match createEmbeddings deps.embed chunks with
            | .error _ => some (false, st3, tr3 ++ [GatewayEvent.embedCall])
            | .ok embeddings =>
              let fileContents :=
                if jsStartsWith opts.mimeType "image/" then some opts.fileContent
                else none
              match insertDocumentChunks deps.failures chunks embeddings
                  opts.fileId opts.fileUrl opts.fileTitle opts.mimeType
                  fileContents st3 with
              | .error _ =>
                some (false, st3,
                  tr3 ++ [GatewayEvent.embedCall, GatewayEvent.insertChunks])
              | .ok st4 =>
                some (true, st4,
                  tr3 ++ [GatewayEvent.embedCall, GatewayEvent.insertChunks])

/-! ## Retrieval tool (`rag-retrieval`) -/

/-- The `metadata` object of a stored chunk as the retrieval tool reads
it (`source`/`filename` are the only fields it inspects). -/
structure ChunkMeta where
  source : Option String
  filename : Option String
deriving Repr, DecidableEq

/-- The empty metadata object `{}` used for `doc.metadata || {}`. -/
def emptyMeta : ChunkMeta := ⟨none, none⟩

/-- One record returned by the `match_documents` RPC. -/
structure MatchedDoc where
  id : Nat
  content : String
  metadata : Option ChunkMeta
  similarity : ℚ
deriving Repr, DecidableEq

/-- A `DocumentChunk` as the tool builds it from an RPC record. -/
structure DocumentChunk where
  id : Nat
  content : String
  metadata : ChunkMeta
  similarity : ℚ
deriving Repr, DecidableEq

/-- The external collaborators of the retrieval tool: the embedding
provider for a single query and the `match_documents` RPC (arguments
`query_embedding` and `match_count`; the `filter` argument is the
constant `{}` and is omitted). -/
structure RagDeps where
  embedOne : String → Except String Vec
  matchDocs : Vec → Nat → Except StoreErr (List MatchedDoc)

/-- Model of `generateEmbedding(text)` of the retrieval tool: call the provider;
the `catch` rebrands any failure as
`ToolExecutionError('rag_retrieval', 'Failed to generate embedding')`. -/
def generateEmbedding (deps : RagDeps) (text : String) :
    Except JsError Vec :=
  match deps.embedOne text with
  | .error _ => .error (.toolExecutionError "rag_retrieval" "Failed to generate embedding")
  | .ok v => .ok v

/-- Model of `searchDocuments(embedding, topK, threshold)`: call the
`match_documents` RPC with `match_count = topK`; an RPC error is thrown
as `DatabaseError` (and rethrown by the `catch`); the returned records
are filtered by `doc.similarity >= threshold` in the tool, then mapped
to `DocumentChunk`s with `metadata || {}`. -/
def searchDocuments (deps : RagDeps) (embedding : Vec) (topK : Nat)
    (threshold : ℚ) : Except JsError (List DocumentChunk) :=
  match deps.matchDocs embedding topK with
  | .error e => .error (.databaseError ("Vector search failed: " ++ e.message))
  | .ok data =>
    let filtered := data.filter (fun d => decide (threshold ≤ d.similarity))
    .ok (filtered.map (fun d =>
      { id := d.id
        content := d.content
        metadata := d.metadata.getD emptyMeta
        similarity := d.similarity }))

/-- JS `a || b` for a possibly-absent string: an absent or empty (falsy)
`a` falls through to `b`. -/
def jsStrOr (a : Option String) (b : String) : String :=
  match a with
  | some s => if s = "" then b else s
  | none => b

/-- Model of `(similarity * 100).toFixed(1)`: one-digit fixed-point rendering of
the relevance percentage (numeric rendering only; no claim depends on
its digits). -/
def toFixed1 (q : ℚ) : String :=
  let m : Int := Int.floor (q * 10 + 1/2)
  toString (m / 10) ++ "." ++ toString (m % 10)

/-- Model of `formatResults(chunks)`: zero results give the "nothing found"
sentinel; otherwise a header with the result count and one trimmed
entry per chunk, joined by separators. -/
def formatResults (chunks : List DocumentChunk) : String :=
  if chunks = [] then "No relevant documents found in the knowledge base."
  else
    let formatted := chunks.enum.map (fun p =>
      let filename := jsStrOr p.2.metadata.filename
        (jsStrOr p.2.metadata.source "Unknown")
      "Document " ++ toString (p.1 + 1) ++ " (" ++ filename ++
        ", relevance: " ++ toFixed1 (p.2.similarity * 100) ++ "%):\n" ++
        p.2.content)
    "Found " ++ toString chunks.length ++ " relevant document(s):\n\n" ++
      String.intercalate "\n\n---\n\n" formatted

/-- Model of `ragRetrievalTool(input)` (defaults `topK = 4`, `threshold = 0.7`
already applied): embed the query, search, format.  The surrounding
`catch` logs and rethrows (`throw error`), so every step failure
propagates to the caller unchanged. -/
def ragRetrievalTool (deps : RagDeps) (query : String) (topK : Nat)
    (threshold : ℚ) : Except JsError String :=
  match generateEmbedding deps query with
  | .error e => .error e
  | .ok embedding =>
    match searchDocuments deps embedding topK threshold with
    | .error e => .error e
    | .ok results => .ok (formatResults results)

/-! ## Memory search (`searchMemories`) -/

/-- One record returned by the `search_memories` RPC (dates as epoch
milliseconds). -/
structure MemRec where
  id : String
  user_id : String
  conversation_id : Option String
  content : String
  importance : ℚ
  embedding : Option Vec
  created_at : Nat
  expires_at : Option Nat
deriving Repr, DecidableEq

/-- A `Memory` as `searchMemories` maps a record to it. -/
structure Memory where
  id : String
  userId : String
  conversationId : Option String
  content : String
  importance : ℚ
  embedding : Option Vec
  createdAt : Nat
  expiresAt : Option Nat
deriving Repr, DecidableEq

/-- The external collaborators of the memory system: the embedding
provider (the memory module's `generateEmbedding` has no `catch`, so its
failure propagates into the caller's `try`) and the `search_memories`
RPC (arguments `user_id`, `query_embedding`, `match_count`,
`similarity_threshold`). -/
structure MemDeps where
  embedOne : String → Except String Vec
  searchRpc : String → Vec → Nat → ℚ → Except StoreErr (List MemRec)

/-- The arguments of `searchMemories` (defaults `topK = 5`,
`threshold = 0.7` already applied). -/
structure SearchMemoriesInput where
  userId : String
  query : String
  topK : Nat
  threshold : ℚ

/-- Model of `searchMemories(input)`: embed the query, call the RPC (an error is
thrown as `DatabaseError`), map records to `Memory` values; the
surrounding `catch` logs and returns the empty array instead of
throwing, so every failure yields `[]`. -/
def searchMemories (deps : MemDeps) (input : SearchMemoriesInput) :
    List Memory :=
  let body : Except JsError (List Memory) :=
    match deps.embedOne input.query with
    | .error msg => .error (.genericError msg)
    | .ok queryEmbedding =>
      match deps.searchRpc input.userId queryEmbedding input.topK
          input.threshold with
      | .error e =>
        .error (.databaseError ("Memory search failed: " ++ e.message))
      | .ok data =>
        .ok (data.map (fun m =>
          { id := m.id
            userId := m.user_id
            conversationId := m.conversation_id
            content := m.content
            importance := m.importance
            embedding := m.embedding
            createdAt := m.created_at
            expiresAt := m.expires_at }))
  match body with
  | .ok memories => memories
  | .error _ => []

/-! ## Theorems about the claims -/

/-- C9: the tabular extractors never raise: both are total functions
into plain lists, and on a csv-parse error each returns the empty
list, so a malformed tabular file cannot abort the text-indexing path
of the same source. -/
theorem extractCSV_parse_error_empty (sp rp : CsvParse) (b : Bytes)
    (e e' : ParseErr) (hs : sp b = .error e) (hr : rp b = .error e') :
    extractSchemaFromCSV sp b = [] ∧ extractRowsFromCSV rp b = [] := by
  unfold extractSchemaFromCSV extractRowsFromCSV
  rw [hs, hr]
  exact ⟨rfl, rfl⟩

/-- C9 witness: a parser that always fails yields empty schema and rows. -/
theorem extractCSV_parse_error_empty_witness :
    ((fun _ : Bytes =>
        (Except.error ⟨"Invalid Record Length"⟩ :
          Except ParseErr (List CsvRecord))) [] =
      .error ⟨"Invalid Record Length"⟩) ∧
    (extractSchemaFromCSV (fun _ => .error ⟨"Invalid Record Length"⟩) [] = [] ∧
     extractRowsFromCSV (fun _ => .error ⟨"Invalid Record Length"⟩) [] = []) :=
  ⟨rfl,
   extractCSV_parse_error_empty
     (fun _ => .error ⟨"Invalid Record Length"⟩)
     (fun _ => .error ⟨"Invalid Record Length"⟩) [] _ _ rfl rfl⟩

/-- C10: `searchMemories` never raises to its caller: a failing
embedding call, a failing store query, and a successful query with no
matches all yield the empty memory list, so those outcomes are
indistinguishable to callers. -/
theorem searchMemories_never_raises (deps : MemDeps)
    (input : SearchMemoriesInput) :
    (∀ e, deps.embedOne input.query = .error e →
      searchMemories deps input = []) ∧
    (∀ v e, deps.embedOne input.query = .ok v →
      deps.searchRpc input.userId v input.topK input.threshold = .error e →
      searchMemories deps input = []) ∧
    (∀ v, deps.embedOne input.query = .ok v →
      deps.searchRpc input.userId v input.topK input.threshold = .ok [] →
      searchMemories deps input = []) := by
  refine ⟨?_, ?_, ?_⟩
  · intro e he
    unfold searchMemories
    rw [he]
  · intro v e hv hrpc
    unfold searchMemories
    rw [hv]
    dsimp only
    rw [hrpc]
  · intro v hv hrpc
    unfold searchMemories
    rw [hv]
    dsimp only
    rw [hrpc]
    rfl

/-- C10 witness: concrete failing collaborators produce the empty list. -/
theorem searchMemories_never_raises_witness :
    ((fun _ : String => (Except.error "provider down" : Except String Vec))
        "q" = .error "provider down") ∧
    searchMemories
      ⟨fun _ => .error "provider down", fun _ _ _ _ => .ok []⟩
      ⟨"u1", "q", 5, 7/10⟩ = [] := by
  refine ⟨rfl, ?_⟩
  exact (searchMemories_never_raises
    ⟨fun _ => .error "provider down", fun _ _ _ _ => .ok []⟩
    ⟨"u1", "q", 5, 7/10⟩).1 "provider down" rfl

/-- C5 counterexample: with a failing embedding provider the retrieval
tool propagates a `ToolExecutionError` to its caller; it does not
return the "nothing found" sentinel. -/
theorem ragRetrievalTool_error_not_sentinel_cex :
    ragRetrievalTool
      ⟨fun _ => .error "rate limited", fun _ _ => .ok []⟩ "q" 4 (7/10) =
      .error (.toolExecutionError "rag_retrieval" "Failed to generate embedding") ∧
    ragRetrievalTool
      ⟨fun _ => .error "rate limited", fun _ _ => .ok []⟩ "q" 4 (7/10) ≠
      .ok "No relevant documents found in the knowledge base." := by
  constructor
  · rfl
  · intro h
    simp [ragRetrievalTool, generateEmbedding] at h

/-- C5 amended: when an internal step of `ragRetrievalTool` fails the
error is rethrown to the caller — an embedding failure as
`ToolExecutionError`, a vector-search failure as `DatabaseError` — and
the "nothing found" sentinel is not produced on failure. -/
theorem ragRetrievalTool_propagates_errors (deps : RagDeps)
    (query : String) (topK : Nat) (threshold : ℚ) :
    (∀ e, deps.embedOne query = .error e →
      ragRetrievalTool deps query topK threshold =
        .error (.toolExecutionError "rag_retrieval" "Failed to generate embedding")) ∧
    (∀ v e, deps.embedOne query = .ok v → deps.matchDocs v topK = .error e →
      ragRetrievalTool deps query topK threshold =
        .error (.databaseError ("Vector search failed: " ++ e.message))) := by
  constructor
  · intro e he
    unfold ragRetrievalTool generateEmbedding
    rw [he]
  · intro v e hv he
    unfold ragRetrievalTool generateEmbedding searchDocuments
    rw [hv]
    dsimp only
    rw [he]

/-- C5 witness: both failure modes at concrete inputs. -/
theorem ragRetrievalTool_propagates_errors_witness :
    ((fun _ : String => (Except.error "rate limited" : Except String Vec))
        "q" = .error "rate limited") ∧
    ragRetrievalTool
      ⟨fun _ => .error "rate limited", fun _ _ => .ok []⟩ "q" 4 (7/10) =
      .error (.toolExecutionError "rag_retrieval" "Failed to generate embedding") ∧
    ragRetrievalTool
      ⟨fun _ => .ok [1], fun _ _ => .error ⟨"57014", "canceled"⟩⟩ "q" 4 (7/10) =
      .error (.databaseError ("Vector search failed: " ++ "canceled")) := by
  refine ⟨rfl, ?_, ?_⟩
  · exact (ragRetrievalTool_propagates_errors
      ⟨fun _ => .error "rate limited", fun _ _ => .ok []⟩ "q" 4 (7/10)).1
      "rate limited" rfl
  · exact (ragRetrievalTool_propagates_errors
      ⟨fun _ => .ok [1], fun _ _ => .error ⟨"57014", "canceled"⟩⟩ "q" 4 (7/10)).2
      [1] ⟨"57014", "canceled"⟩ rfl rfl

/-- C6: every result of `searchDocuments` scores at least the
threshold, and — provided the store honours its `match_count` limit —
at most `topK` results are returned. -/
theorem searchDocuments_threshold_contract (deps : RagDeps)
    (embedding : Vec) (topK : Nat) (threshold : ℚ)
    (res : List DocumentChunk)
    (hstore : ∀ data, deps.matchDocs embedding topK = .ok data →
      data.length ≤ topK)
    (hres : searchDocuments deps embedding topK threshold = .ok res) :
    (∀ c ∈ res, threshold ≤ c.similarity) ∧ res.length ≤ topK := by
  unfold searchDocuments at hres
  cases hm : deps.matchDocs embedding topK with
  | error e => rw [hm] at hres; exact absurd hres (by simp)
  | ok data =>
    rw [hm] at hres
    simp only [Except.ok.injEq] at hres
    subst hres
    constructor
    · intro c hc
      rcases List.mem_map.mp hc with ⟨d, hd, rfl⟩
      have := List.of_mem_filter hd
      simpa using this
    · calc ((data.filter _).map _).length
          = (data.filter _).length := List.length_map _ _
        _ ≤ data.length := List.length_filter_le _ _
        _ ≤ topK := hstore data hm

/-- C6 witness: a store returning one record of similarity 0.8 against
threshold 0.7 and `topK = 4`. -/
theorem searchDocuments_threshold_contract_witness :
    (∀ data,
      (fun (_ : Vec) (_ : Nat) =>
          (Except.ok [⟨1, "c", none, 8/10⟩] :
            Except StoreErr (List MatchedDoc))) [] 4 = .ok data →
      data.length ≤ 4) ∧
    (searchDocuments ⟨fun _ => .ok [], fun _ _ => .ok [⟨1, "c", none, 8/10⟩]⟩
        [] 4 (7/10) =
      .ok [⟨1, "c", emptyMeta, 8/10⟩]) ∧
    ((∀ c ∈ [(⟨1, "c", emptyMeta, 8/10⟩ : DocumentChunk)],
        (7/10 : ℚ) ≤ c.similarity) ∧
      [(⟨1, "c", emptyMeta, 8/10⟩ : DocumentChunk)].length ≤ 4) := by
  have hstore : ∀ data,
      (fun (_ : Vec) (_ : Nat) =>
          (Except.ok [⟨1, "c", none, 8/10⟩] :
            Except StoreErr (List MatchedDoc))) [] 4 = .ok data →
      data.length ≤ 4 := by
    intro data h
    simp only [Except.ok.injEq] at h
    subst h
    decide
  have hres : searchDocuments
      ⟨fun _ => .ok [], fun _ _ => .ok [⟨1, "c", none, 8/10⟩]⟩ [] 4 (7/10) =
      .ok [⟨1, "c", emptyMeta, 8/10⟩] := by
    unfold searchDocuments
    norm_num [emptyMeta]
  exact ⟨hstore, hres,
    searchDocuments_threshold_contract
      ⟨fun _ => .ok [], fun _ _ => .ok [⟨1, "c", none, 8/10⟩]⟩
      [] 4 (7/10) [⟨1, "c", emptyMeta, 8/10⟩] hstore hres⟩

/-- C7: a retrieval whose search succeeds but matches nothing (every
stored score below the threshold) returns the non-empty "nothing
found" sentinel — not the empty string and not an error. -/
theorem ragRetrievalTool_nothing_found (deps : RagDeps) (query : String)
    (topK : Nat) (threshold : ℚ) (v : Vec) (data : List MatchedDoc)
    (hemb : deps.embedOne query = .ok v)
    (hrpc : deps.matchDocs v topK = .ok data)
    (hbelow : ∀ d ∈ data, d.similarity < threshold) :
    ragRetrievalTool deps query topK threshold =
      .ok "No relevant documents found in the knowledge base." ∧
    "No relevant documents found in the knowledge base." ≠ "" := by
  constructor
  · unfold ragRetrievalTool generateEmbedding searchDocuments
    rw [hemb]
    dsimp only
    rw [hrpc]
    have hnil : data.filter (fun d => decide (threshold ≤ d.similarity)) = [] := by
      rw [List.filter_eq_nil_iff]
      intro d hd
      simpa using not_le.mpr (hbelow d hd)
    simp only [hnil]
    rfl
  · decide

/-- C7 witness (Scenario D): threshold 0.9 against a store whose best
match scores 0.7. -/
theorem ragRetrievalTool_nothing_found_witness :
    ((fun _ : String => (Except.ok [1] : Except String Vec)) "q" = .ok [1]) ∧
    ((fun (_ : Vec) (_ : Nat) =>
        (Except.ok [⟨1, "best", none, 7/10⟩] :
          Except StoreErr (List MatchedDoc))) [1] 4 =
      .ok [⟨1, "best", none, 7/10⟩]) ∧
    (∀ d ∈ [(⟨1, "best", none, 7/10⟩ : MatchedDoc)],
      d.similarity < (9/10 : ℚ)) ∧
    (ragRetrievalTool
        ⟨fun _ => .ok [1], fun _ _ => .ok [⟨1, "best", none, 7/10⟩]⟩
        "q" 4 (9/10) =
      .ok "No relevant documents found in the knowledge base." ∧
      "No relevant documents found in the knowledge base." ≠ "") := by
  have hbelow : ∀ d ∈ [(⟨1, "best", none, 7/10⟩ : MatchedDoc)],
      d.similarity < (9/10 : ℚ) := by
    intro d hd
    rw [List.mem_singleton] at hd
    subst hd
    norm_num
  exact ⟨rfl, rfl, hbelow,
    ragRetrievalTool_nothing_found
      ⟨fun _ => .ok [1], fun _ _ => .ok [⟨1, "best", none, 7/10⟩]⟩
      "q" 4 (9/10) [1] [⟨1, "best", none, 7/10⟩] rfl rfl hbelow⟩

/-- C8: in `deleteDocumentByFileId` a chunk-delete failure is fatal
(the call raises `DatabaseError`); with the chunk delete succeeding the
call always completes without error, whatever the row-delete and
metadata-delete outcomes; and non-`PGRST116` failures of those two
best-effort deletes are logged as warnings while being swallowed. -/
theorem deleteDocumentByFileId_error_policy (f : StoreFailures)
    (fileId : String) (st : DBState) :
    (∀ e, f.delChunks = some e →
      deleteDocumentByFileId f fileId st =
        .error (.databaseError ("Failed to delete document: " ++ e.message))) ∧
    (f.delChunks = none →
      ∃ st' logs, deleteDocumentByFileId f fileId st = .ok (st', logs)) ∧
    (∀ e e', f.delChunks = none → f.delRows = some e → e.code ≠ "PGRST116" →
      f.delMeta = some e' → e'.code ≠ "PGRST116" →
      deleteDocumentByFileId f fileId st =
        .ok ({ st with
                documents :=
                  st.documents.filter (fun r => !(r.file_id = fileId)) },
             [LogEvent.warnRowsDelete, LogEvent.warnMetaDelete])) := by
  refine ⟨?_, ?_, ?_⟩
  · intro e he
    unfold deleteDocumentByFileId
    rw [he]
  · intro hc
    unfold deleteDocumentByFileId
    rw [hc]
    cases hr : f.delRows with
    | some e =>
      cases hm : f.delMeta with
      | some e' => exact ⟨_, _, rfl⟩
      | none => exact ⟨_, _, rfl⟩
    | none =>
      cases hm : f.delMeta with
      | some e' => exact ⟨_, _, rfl⟩
      | none => exact ⟨_, _, rfl⟩
  · intro e e' hc hr hrc hm hmc
    unfold deleteDocumentByFileId
    rw [hc, hr, hm]
    dsimp only
    rw [if_neg hrc, if_neg hmc]
    rfl

/-- C8 witness: a fatal chunk-delete failure, and swallowed-but-logged
row/metadata-delete failures, both at concrete inputs. -/
theorem deleteDocumentByFileId_error_policy_witness :
    ((⟨some ⟨"08006", "connection failure"⟩, none, none,
        none, none, none, none⟩ : StoreFailures).delChunks =
      some ⟨"08006", "connection failure"⟩ ∧
     deleteDocumentByFileId
        ⟨some ⟨"08006", "connection failure"⟩, none, none,
          none, none, none, none⟩ "f1" ⟨[], [], []⟩ =
       .error (.databaseError ("Failed to delete document: " ++ "connection failure"))) ∧
    (deleteDocumentByFileId
        ⟨none, some ⟨"42P01", "rows table missing"⟩,
          some ⟨"42501", "permission denied"⟩, none, none, none, none⟩
        "f1" ⟨[], [], []⟩ =
      .ok (⟨[], [], []⟩, [LogEvent.warnRowsDelete, LogEvent.warnMetaDelete])) := by
  constructor
  · refine ⟨rfl, ?_⟩
    exact (deleteDocumentByFileId_error_policy
      ⟨some ⟨"08006", "connection failure"⟩, none, none,
        none, none, none, none⟩ "f1" ⟨[], [], []⟩).1
      ⟨"08006", "connection failure"⟩ rfl
  · have := (deleteDocumentByFileId_error_policy
      ⟨none, some ⟨"42P01", "rows table missing"⟩,
        some ⟨"42501", "permission denied"⟩, none, none, none, none⟩
      "f1" ⟨[], [], []⟩).2.2
      ⟨"42P01", "rows table missing"⟩ ⟨"42501", "permission denied"⟩
      rfl rfl (by decide) rfl (by decide)
    simpa using this

/-- The window advance of `chunkText` is `chunkSize - overlap`; when it
is not positive and the running index is at most 0, a non-empty cleaned
text keeps the loop guard true forever: no fuel suffices. -/
theorem chunkLoop_zero_advance_aux :
    ∀ (fuel : Nat) (i : Int), i ≤ 0 →
      ∀ acc, chunkLoop ['a'] 1 1 i acc fuel = none := by
  intro fuel
  induction fuel with
  | zero => intro i hi acc; rfl
  | succ n ih =>
    intro i hi acc
    have hlt : i < (((['a'] : List Char)).length : Int) := by
      simp only [List.length_singleton]
      omega
    simp only [chunkLoop, if_pos hlt]
    exact ih (i + (1 - 1)) (by omega) _

/-- C2 (code bug): the configuration `overlap >= chunkSize` is neither
rejected nor clamped by `chunkText`: on the non-empty text `"a"` with
`chunkSize = 1, overlap = 1` the loop advance is `0`, the index never
reaches the text length, and the loop never terminates — for every
iteration budget the fuelled embedding reports divergence. -/
theorem chunkText_overlap_ge_size_diverges :
    chunkText ['a'] 1 1 = none ∧
    ∀ (fuel : Nat) (acc : List (List Char)),
      chunkLoop ['a'] 1 1 0 acc fuel = none := by
  constructor
  · exact chunkLoop_zero_advance_aux 2 0 le_rfl []
  · intro fuel acc
    exact chunkLoop_zero_advance_aux fuel 0 le_rfl acc

/-- One unrolling of the `chunkText` loop. -/
theorem chunkLoop_step (cleaned : List Char) (cs ov i : Int)
    (acc : List (List Char)) (fuel : Nat) :
    chunkLoop cleaned cs ov i acc (fuel + 1) =
      if i < (cleaned.length : Int) then
        chunkLoop cleaned cs ov (i + (cs - ov))
          (if jsTrimNonempty (jsSlice cleaned i (i + cs)) then
            acc ++ [jsSlice cleaned i (i + cs)] else acc) fuel
      else some acc := rfl

/-- A window slice at a non-negative in-range start is drop-then-take. -/
theorem jsSlice_window (s : List Char) (i n : Int) (h0 : 0 ≤ i)
    (hn : 0 < n) (hi : i < (s.length : Int)) :
    jsSlice s i (i + n) = (s.drop i.toNat).take n.toNat := by
  unfold jsSlice
  dsimp only
  rw [if_neg (not_lt.mpr h0), if_neg (by omega : ¬ (i + n < 0))]
  rw [if_pos (by omega : min i (s.length : Int) < min (i + n) (s.length : Int))]
  rw [min_eq_left (by omega : i ≤ (s.length : Int))]
  rw [List.take_eq_take]
  simp only [List.length_drop]
  omega

/-- C3 (Scenario A): on any 2500-character text without carriage
returns whose 1000-character windows are all non-blank, the chunker
with `chunkSize = 1000, overlap = 200` yields exactly the four windows
at offsets 0, 800, 1600 and 2400, the last one shorter than 1000. -/
theorem chunkText_scenarioA (text : List Char)
    (hlen : text.length = 2500)
    (hcr : '\r' ∉ text)
    (hnb : ∀ i : Nat, i < 2500 →
      jsTrimNonempty ((text.drop i).take 1000) = true) :
    chunkText text 1000 200 =
      some [text.take 1000, (text.drop 800).take 1000,
            (text.drop 1600).take 1000, (text.drop 2400).take 1000] ∧
    ((text.drop 2400).take 1000).length < 1000 := by
  have hne : text ≠ [] := by
    intro h
    rw [h] at hlen
    simp at hlen
  have hfilter : text.filter (fun c => c ≠ '\r') = text := by
    rw [List.filter_eq_self]
    intro a ha
    simp only [ne_eq, decide_not, Bool.not_eq_true', decide_eq_false_iff_not]
    intro h
    exact hcr (h ▸ ha)
  have w0 : jsSlice text 0 (0 + 1000) = (text.drop 0).take 1000 :=
    jsSlice_window text 0 1000 (by norm_num) (by norm_num)
      (by rw [hlen]; norm_num)
  have w800 : jsSlice text 800 (800 + 1000) = (text.drop 800).take 1000 :=
    jsSlice_window text 800 1000 (by norm_num) (by norm_num)
      (by rw [hlen]; norm_num)
  have w1600 : jsSlice text 1600 (1600 + 1000) = (text.drop 1600).take 1000 :=
    jsSlice_window text 1600 1000 (by norm_num) (by norm_num)
      (by rw [hlen]; norm_num)
  have w2400 : jsSlice text 2400 (2400 + 1000) = (text.drop 2400).take 1000 :=
    jsSlice_window text 2400 1000 (by norm_num) (by norm_num)
      (by rw [hlen]; norm_num)
  constructor
  · unfold chunkText
    rw [if_neg hne]
    dsimp only
    rw [hfilter, hlen]
    rw [chunkLoop_step, hlen]
    rw [if_pos (by norm_num : (0:ℤ) < ((2500:ℕ):ℤ))]
    rw [w0, if_pos (hnb 0 (by norm_num)), List.nil_append]
    rw [show ((0:ℤ) + (1000 - 200)) = 800 from by norm_num]
    rw [show (2500:ℕ) = 2499 + 1 from rfl]
    rw [chunkLoop_step, hlen]
    rw [if_pos (by norm_num : (800:ℤ) < ((2500:ℕ):ℤ))]
    rw [w800, if_pos (hnb 800 (by norm_num))]
    rw [show ((800:ℤ) + (1000 - 200)) = 1600 from by norm_num]
    rw [show (2499:ℕ) = 2498 + 1 from rfl]
    rw [chunkLoop_step, hlen]
    rw [if_pos (by norm_num : (1600:ℤ) < ((2500:ℕ):ℤ))]
    rw [w1600, if_pos (hnb 1600 (by norm_num))]
    rw [show ((1600:ℤ) + (1000 - 200)) = 2400 from by norm_num]
    rw [show (2498:ℕ) = 2497 + 1 from rfl]
    rw [chunkLoop_step, hlen]
    rw [if_pos (by norm_num : (2400:ℤ) < ((2500:ℕ):ℤ))]
    rw [w2400, if_pos (hnb 2400 (by norm_num))]
    rw [show ((2400:ℤ) + (1000 - 200)) = 3200 from by norm_num]
    rw [show (2497:ℕ) = 2496 + 1 from rfl]
    rw [chunkLoop_step, hlen]
    rw [if_neg (by norm_num : ¬ ((3200:ℤ) < ((2500:ℕ):ℤ)))]
    rw [List.drop_zero]
    rfl
  · rw [List.length_take, List.length_drop, hlen]
    omega

/-- A repeated non-whitespace character always survives trimming. -/
theorem jsTrimNonempty_replicate (m : Nat) (c : Char) (hm : 0 < m)
    (hc : isJsSpace c = false) :
    jsTrimNonempty (List.replicate m c) = true := by
  cases m with
  | zero => omega
  | succ k => simp [jsTrimNonempty, List.replicate_succ, hc]

/-- C3 witness: 2500 letters `a`. -/
theorem chunkText_scenarioA_witness :
    (List.replicate 2500 'a').length = 2500 ∧
    '\r' ∉ List.replicate 2500 'a' ∧
    (∀ i : Nat, i < 2500 →
      jsTrimNonempty (((List.replicate 2500 'a').drop i).take 1000) = true) ∧
    (chunkText (List.replicate 2500 'a') 1000 200 =
        some [(List.replicate 2500 'a').take 1000,
              ((List.replicate 2500 'a').drop 800).take 1000,
              ((List.replicate 2500 'a').drop 1600).take 1000,
              ((List.replicate 2500 'a').drop 2400).take 1000] ∧
      (((List.replicate 2500 'a').drop 2400).take 1000).length < 1000) := by
  have h1 : (List.replicate 2500 'a').length = 2500 := by
    rw [List.length_replicate]
  have h2 : '\r' ∉ List.replicate 2500 'a' := by
    rw [List.mem_replicate]
    rintro ⟨-, h⟩
    exact absurd h (by decide)
  have h3 : ∀ i : Nat, i < 2500 →
      jsTrimNonempty (((List.replicate 2500 'a').drop i).take 1000) = true := by
    intro i hi
    rw [List.drop_replicate, List.take_replicate]
    exact jsTrimNonempty_replicate _ 'a' (by omega) (by decide)
  exact ⟨h1, h2, h3, chunkText_scenarioA _ h1 h2 h3⟩

/-- The state left by a successful `deleteDocumentByFileId`: every
record of the source removed from all three tables. -/
def purgeState (fileId : String) (st : DBState) : DBState :=
  ⟨st.documents.filter (fun r => !(r.file_id = fileId)),
   st.document_rows.filter (fun r => !(r.dataset_id = fileId)),
   st.document_metadata.filter (fun r => !(r.id = fileId))⟩

theorem delete_noFailures (fileId : String) (st : DBState) :
    deleteDocumentByFileId noFailures fileId st =
      .ok (purgeState fileId st, []) := rfl

theorem find?_purged_meta (l : List MetaRec) (fileId : String) :
    (l.filter (fun r => !(r.id = fileId))).find?
      (fun r => r.id = fileId) = none := by
  rw [List.find?_eq_none]
  intro x hx
  have h := List.of_mem_filter hx
  simp only [Bool.not_eq_true', decide_eq_false_iff_not] at h
  simp [h]

theorem metaUpsert_noFailures_insert (fileId fileTitle fileUrl : String)
    (schema : Option (List String)) (st : DBState)
    (hfind : st.document_metadata.find? (fun r => r.id = fileId) = none) :
    insertOrUpdateDocumentMetadata noFailures fileId fileTitle fileUrl
        schema st =
      .ok { st with
        document_metadata :=
          st.document_metadata ++ [⟨fileId, fileTitle, fileUrl, schema⟩] } := by
  unfold insertOrUpdateDocumentMetadata
  dsimp only
  rw [hfind]
  rfl

theorem rows_noFailures (fileId : String) (rows : List CsvRecord)
    (st : DBState) :
    insertDocumentRows noFailures fileId rows st =
      .ok { st with
        document_rows :=
          st.document_rows.filter (fun r => !(r.dataset_id = fileId)) ++
            rows.map (fun row => ⟨fileId, row⟩) } := rfl

theorem chunksInsert_noFailures (chunks : List (List Char))
    (embeddings : List Vec) (fileId fileUrl fileTitle mimeType : String)
    (fileContents : Option Bytes) (st : DBState)
    (hlen : chunks.length = embeddings.length) :
    insertDocumentChunks noFailures chunks embeddings fileId fileUrl
        fileTitle mimeType fileContents st =
      .ok { st with
        documents := st.documents ++
          chunkRowsOf chunks embeddings fileId fileUrl fileTitle mimeType
            fileContents } := by
  unfold insertDocumentChunks
  rw [if_neg (by omega : ¬ chunks.length ≠ embeddings.length)]
  rfl

/-- A concrete tabular ingestion: a CSV with schema `name, amount` and
one row, a one-chunk text, an always-succeeding embedder and store. -/
def tabularDeps : Deps :=
  ⟨fun _ => .ok [[("name", CellVal.str "acme"), ("amount", CellVal.num 42)]],
   fun _ => .ok [[("name", CellVal.str "acme"), ("amount", CellVal.num 42)]],
   fun ts => .ok (ts.map (fun _ => [1])),
   noFailures⟩

def tabularOpts : ProcessFileOptions :=
  ⟨[], "hello".data, "f1", "http://u", "t.csv", "text/csv", 1000, 200⟩

/-- C4 counterexample: on a successful tabular ingestion the orchestrator
calls `upsert_source_metadata` BEFORE `insert_rows`; the trace is not the
claimed `delete, insert_rows, upsert_source_metadata` order. -/
theorem processFileForRAG_order_cex :
    (processFileForRAG tabularDeps tabularOpts ⟨[], [], []⟩).map
        (fun r => r.2.2) =
      some [GatewayEvent.deleteSource, GatewayEvent.upsertMetadata,
            GatewayEvent.insertRows, GatewayEvent.embedCall,
            GatewayEvent.insertChunks] ∧
    (processFileForRAG tabularDeps tabularOpts ⟨[], [], []⟩).map
        (fun r => r.2.2) ≠
      some [GatewayEvent.deleteSource, GatewayEvent.insertRows,
            GatewayEvent.upsertMetadata, GatewayEvent.embedCall,
            GatewayEvent.insertChunks] := by
  constructor
  · rfl
  · intro h
    rw [show (processFileForRAG tabularDeps tabularOpts ⟨[], [], []⟩).map
          (fun r => r.2.2) =
        some [GatewayEvent.deleteSource, GatewayEvent.upsertMetadata,
              GatewayEvent.insertRows, GatewayEvent.embedCall,
              GatewayEvent.insertChunks] from rfl] at h
    simp at h

/-- C4 amended: with a succeeding store, a successful ingestion of a
tabular source with non-empty rows and non-empty chunks performs its
gateway calls in the order `delete_source`, `upsert_source_metadata`,
`insert_rows`, then the embedding call and `insert_chunks`. -/
theorem processFileForRAG_call_order (deps : Deps)
    (opts : ProcessFileOptions) (st : DBState)
    (chunks : List (List Char)) (embs : List Vec)
    (hnf : deps.failures = noFailures)
    (htab : isTabularFile opts.mimeType = true)
    (hrows : extractRowsFromCSV deps.rowsParse opts.fileContent ≠ [])
    (hchunks : chunkText opts.text opts.chunkSize opts.chunkOverlap =
      some chunks)
    (hne : chunks ≠ [])
    (hemb : deps.embed chunks = .ok embs)
    (hlen : chunks.length = embs.length) :
    ∃ st', processFileForRAG deps opts st =
      some (true, st',
        [GatewayEvent.deleteSource, GatewayEvent.upsertMetadata,
         GatewayEvent.insertRows, GatewayEvent.embedCall,
         GatewayEvent.insertChunks]) := by
  have hce : createEmbeddings deps.embed chunks = .ok embs := by
    unfold createEmbeddings
    rw [if_neg hne, hemb]
  apply Exists.intro
  unfold processFileForRAG
  rw [hnf, delete_noFailures]
  dsimp only
  rw [htab]
  simp only [eq_self_iff_true, if_true, true_and]
  rw [metaUpsert_noFailures_insert _ _ _ _ _
    (find?_purged_meta st.document_metadata opts.fileId)]
  dsimp only
  rw [if_pos hrows]
  rw [rows_noFailures]
  dsimp only
  rw [hchunks]
  dsimp only
  rw [if_neg hne, hce]
  dsimp only
  rw [chunksInsert_noFailures _ _ _ _ _ _ _ _ hlen]
  rfl

/-- C4 witness: the amended order at the concrete tabular ingestion. -/
theorem processFileForRAG_call_order_witness :
    tabularDeps.failures = noFailures ∧
    isTabularFile tabularOpts.mimeType = true ∧
    extractRowsFromCSV tabularDeps.rowsParse tabularOpts.fileContent ≠ [] ∧
    chunkText tabularOpts.text tabularOpts.chunkSize tabularOpts.chunkOverlap =
      some ["hello".data] ∧
    (["hello".data] : List (List Char)) ≠ [] ∧
    tabularDeps.embed ["hello".data] = .ok [[1]] ∧
    (∃ st', processFileForRAG tabularDeps tabularOpts ⟨[], [], []⟩ =
      some (true, st',
        [GatewayEvent.deleteSource, GatewayEvent.upsertMetadata,
         GatewayEvent.insertRows, GatewayEvent.embedCall,
         GatewayEvent.insertChunks])) := by
  refine ⟨rfl, by decide, by decide, by decide, by decide, rfl, ?_⟩
  exact processFileForRAG_call_order tabularDeps tabularOpts ⟨[], [], []⟩
    ["hello".data] [[1]] rfl (by decide) (by decide) (by decide)
    (by decide) rfl rfl

theorem filter_idem {α : Type} (p : α → Bool) (l : List α) :
    (l.filter p).filter p = l.filter p := by
  induction l with
  | nil => rfl
  | cons a t ih =>
    by_cases h : p a = true
    · simp [List.filter_cons, h, ih]
    · simp [List.filter_cons, h, ih]

theorem filter_rowRecs_self (fileId : String) (rows : List CsvRecord) :
    (rows.map (fun row => (⟨fileId, row⟩ : RowRec))).filter
      (fun r => !(r.dataset_id = fileId)) = [] := by
  rw [List.filter_eq_nil_iff]
  intro a ha
  rcases List.mem_map.mp ha with ⟨row, -, rfl⟩
  simp

theorem filter_metaRec_self (fileId title url : String)
    (schema : Option (List String)) :
    ([⟨fileId, title, url, schema⟩] : List MetaRec).filter
      (fun r => !(r.id = fileId)) = [] := by
  simp [List.filter]

theorem filter_chunkRows_self (chunks : List (List Char))
    (embs : List Vec) (fileId fileUrl fileTitle mimeType : String)
    (fc : Option Bytes) :
    (chunkRowsOf chunks embs fileId fileUrl fileTitle mimeType fc).filter
      (fun r => !(r.file_id = fileId)) = [] := by
  rw [List.filter_eq_nil_iff]
  intro a ha
  rcases List.mem_map.mp ha with ⟨p, -, rfl⟩
  simp

/-- C1: re-ingestion is idempotent.  With a succeeding store, if one
`processFileForRAG` call on input `opts` turns state `st` into `st1`
(with outcome `b` and call trace `tr`), then running the identical call
again from `st1` returns the same outcome and trace and leaves the
state at `st1`: the unconditional delete removes exactly the records
the first run inserted before identical records are re-inserted. -/
theorem processFileForRAG_idempotent (deps : Deps)
    (opts : ProcessFileOptions) (st : DBState) (b : Bool) (st1 : DBState)
    (tr : List GatewayEvent)
    (hnf : deps.failures = noFailures)
    (h1 : processFileForRAG deps opts st = some (b, st1, tr)) :
    processFileForRAG deps opts st1 = some (b, st1, tr) := by
  unfold processFileForRAG at h1 ⊢
  rw [hnf, delete_noFailures] at h1
  rw [hnf, delete_noFailures]
  dsimp only at h1 ⊢
  rw [metaUpsert_noFailures_insert _ _ _ _ _
    (find?_purged_meta st.document_metadata opts.fileId)] at h1
  rw [metaUpsert_noFailures_insert _ _ _ _ _
    (find?_purged_meta st1.document_metadata opts.fileId)]
  dsimp only at h1 ⊢
  by_cases hc : isTabularFile opts.mimeType = true ∧
      (if isTabularFile opts.mimeType = true then
        extractRowsFromCSV deps.rowsParse opts.fileContent else []) ≠ []
  · rw [if_pos hc] at h1 ⊢
    rw [rows_noFailures] at h1 ⊢
    dsimp only at h1 ⊢
    cases hct : chunkText opts.text opts.chunkSize opts.chunkOverlap with
    | none =>
      rw [hct] at h1
      simp at h1
    | some chunks =>
      rw [hct] at h1
      dsimp only at h1 ⊢
      by_cases hemp : chunks = []
      · rw [if_pos hemp] at h1 ⊢
        simp only [Option.some.injEq, Prod.mk.injEq] at h1
        obtain ⟨hb, hst, htr⟩ := h1
        subst hb
        subst htr
        subst hst
        simp [purgeState, List.filter_append, filter_idem,
          filter_rowRecs_self, filter_metaRec_self, filter_chunkRows_self]
      · rw [if_neg hemp] at h1 ⊢
        cases hce : createEmbeddings deps.embed chunks with
        | error e =>
          rw [hce] at h1
          dsimp only at h1 ⊢
          simp only [Option.some.injEq, Prod.mk.injEq] at h1
          obtain ⟨hb, hst, htr⟩ := h1
          subst hb
          subst htr
          subst hst
          simp [purgeState, List.filter_append, filter_idem,
            filter_rowRecs_self, filter_metaRec_self, filter_chunkRows_self]
        | ok embs =>
          rw [hce] at h1
          dsimp only at h1 ⊢
          by_cases hl : chunks.length = embs.length
          · rw [chunksInsert_noFailures _ _ _ _ _ _ _ _ hl] at h1 ⊢
            dsimp only at h1 ⊢
            simp only [Option.some.injEq, Prod.mk.injEq] at h1
            obtain ⟨hb, hst, htr⟩ := h1
            subst hb
            subst htr
            subst hst
            simp [purgeState, List.filter_append, filter_idem,
              filter_rowRecs_self, filter_metaRec_self, filter_chunkRows_self]
          · have mism : ∀ s : DBState,
                insertDocumentChunks noFailures chunks embs opts.fileId
                  opts.fileUrl opts.fileTitle opts.mimeType
                  (if jsStartsWith opts.mimeType "image/" = true then
                    some opts.fileContent else none) s =
                .error (.genericError
                  "Number of chunks and embeddings must match") := by
              intro s
              unfold insertDocumentChunks
              rw [if_pos hl]
            rw [mism] at h1 ⊢
            dsimp only at h1 ⊢
            simp only [Option.some.injEq, Prod.mk.injEq] at h1
            obtain ⟨hb, hst, htr⟩ := h1
            subst hb
            subst htr
            subst hst
            simp [purgeState, List.filter_append, filter_idem,
              filter_rowRecs_self, filter_metaRec_self, filter_chunkRows_self]
  · rw [if_neg hc] at h1 ⊢
    dsimp only at h1 ⊢
    cases hct : chunkText opts.text opts.chunkSize opts.chunkOverlap with
    | none =>
      rw [hct] at h1
      simp at h1
    | some chunks =>
      rw [hct] at h1
      dsimp only at h1 ⊢
      by_cases hemp : chunks = []
      · rw [if_pos hemp] at h1 ⊢
        simp only [Option.some.injEq, Prod.mk.injEq] at h1
        obtain ⟨hb, hst, htr⟩ := h1
        subst hb
        subst htr
        subst hst
        simp [purgeState, List.filter_append, filter_idem,
          filter_rowRecs_self, filter_metaRec_self, filter_chunkRows_self]
      · rw [if_neg hemp] at h1 ⊢
        cases hce : createEmbeddings deps.embed chunks with
        | error e =>
          rw [hce] at h1
          dsimp only at h1 ⊢
          simp only [Option.some.injEq, Prod.mk.injEq] at h1
          obtain ⟨hb, hst, htr⟩ := h1
          subst hb
          subst htr
          subst hst
          simp [purgeState, List.filter_append, filter_idem,
            filter_rowRecs_self, filter_metaRec_self, filter_chunkRows_self]
        | ok embs =>
          rw [hce] at h1
          dsimp only at h1 ⊢
          by_cases hl : chunks.length = embs.length
          · rw [chunksInsert_noFailures _ _ _ _ _ _ _ _ hl] at h1 ⊢
            dsimp only at h1 ⊢
            simp only [Option.some.injEq, Prod.mk.injEq] at h1
            obtain ⟨hb, hst, htr⟩ := h1
            subst hb
            subst htr
            subst hst
            simp [purgeState, List.filter_append, filter_idem,
              filter_rowRecs_self, filter_metaRec_self, filter_chunkRows_self]
          · have mism : ∀ s : DBState,
                insertDocumentChunks noFailures chunks embs opts.fileId
                  opts.fileUrl opts.fileTitle opts.mimeType
                  (if jsStartsWith opts.mimeType "image/" = true then
                    some opts.fileContent else none) s =
                .error (.genericError
                  "Number of chunks and embeddings must match") := by
              intro s
              unfold insertDocumentChunks
              rw [if_pos hl]
            rw [mism] at h1 ⊢
            dsimp only at h1 ⊢
            simp only [Option.some.injEq, Prod.mk.injEq] at h1
            obtain ⟨hb, hst, htr⟩ := h1
            subst hb
            subst htr
            subst hst
            simp [purgeState, List.filter_append, filter_idem,
              filter_rowRecs_self, filter_metaRec_self, filter_chunkRows_self]

/-- A concrete plain-text ingestion: empty parses, an embedder mapping
every chunk to the vector `[1]`, a succeeding store. -/
def plainDeps : Deps :=
  ⟨fun _ => .ok [], fun _ => .ok [],
   fun ts => .ok (ts.map (fun _ => [1])), noFailures⟩

def plainOpts : ProcessFileOptions :=
  ⟨[], "hi".data, "f1", "u", "t", "text/plain", 1000, 200⟩

/-- C1 witness: ingesting a concrete plain-text source twice from the
empty store gives the same final state, outcome and trace as once. -/
theorem processFileForRAG_idempotent_witness :
    plainDeps.failures = noFailures ∧
    processFileForRAG plainDeps plainOpts ⟨[], [], []⟩ =
      some (true,
        ⟨[⟨"hi".data, "f1", "u", "t", "text/plain", 0, none, [1]⟩], [],
         [⟨"f1", "t", "u", none⟩]⟩,
        [GatewayEvent.deleteSource, GatewayEvent.upsertMetadata,
         GatewayEvent.embedCall, GatewayEvent.insertChunks]) ∧
    processFileForRAG plainDeps plainOpts
        ⟨[⟨"hi".data, "f1", "u", "t", "text/plain", 0, none, [1]⟩], [],
         [⟨"f1", "t", "u", none⟩]⟩ =
      some (true,
        ⟨[⟨"hi".data, "f1", "u", "t", "text/plain", 0, none, [1]⟩], [],
         [⟨"f1", "t", "u", none⟩]⟩,
        [GatewayEvent.deleteSource, GatewayEvent.upsertMetadata,
         GatewayEvent.embedCall, GatewayEvent.insertChunks]) := by
  have h1 : processFileForRAG plainDeps plainOpts ⟨[], [], []⟩ =
      some (true,
        ⟨[⟨"hi".data, "f1", "u", "t", "text/plain", 0, none, [1]⟩], [],
         [⟨"f1", "t", "u", none⟩]⟩,
        [GatewayEvent.deleteSource, GatewayEvent.upsertMetadata,
         GatewayEvent.embedCall, GatewayEvent.insertChunks]) := by decide
  exact ⟨rfl, h1,
    processFileForRAG_idempotent plainDeps plainOpts ⟨[], [], []⟩ _ _ _
      rfl h1⟩

end Rag
